import Mathlib

/-!
Shallow embedding of the vultex bootstrap code: the capability support
table (`RequiredVulkanProperties`), the queue-family search
(`findQueueFamilies`), device scoring (`rateDeviceSuitability`) and
selection (`pickPhysicalDevice`), and the debug-messenger bridge
(`CreateDebugUtilsMessengerEXT`, `setupDebugMessenger`, `debugCallback`).
Machine `int` arithmetic is modelled on `Int` with an explicit
two's-complement reinterpretation (`toInt32`) where the C++ converts an
unsigned 32-bit sum back to `int`.
-/

/-- Embedding of `utility::SupportMap = std::map<std::string, int>` as an
association list from names to integer counters (keys kept distinct). -/
abbrev SupportMap := List (String × Int)

/-- Map lookup; `none` when the key is absent. -/
def mapFind : SupportMap → String → Option Int
  | [], _ => none
  | p :: rest, k => if p.1 = k then some p.2 else mapFind rest k

/-- Value read through `operator[]`: an absent key defaults to `0`
(`std::map` value-initializes the mapped `int`). -/
def mapGet (m : SupportMap) (k : String) : Int :=
  (mapFind m k).getD 0

/-- Store a value under a key: replace the entry when the key is present,
append a fresh entry otherwise (the effect of `m[k] = v`). -/
def mapSet (m : SupportMap) (k : String) (v : Int) : SupportMap :=
  match m with
  | [] => [(k, v)]
  | p :: rest => if p.1 = k then (k, v) :: rest else p :: mapSet rest k v

/-- Embedding of `utility::RequiredVulkanProperties` (data members). -/
structure RequiredVulkanProperties where
  property_type_name : String
  extensions : SupportMap
  all_required_extensions_supported : Bool

/-- Member `all_supported()`. -/
def RequiredVulkanProperties.all_supported (r : RequiredVulkanProperties) : Bool :=
  r.all_required_extensions_supported

/-- One iteration of the constructor loop:
`if (-1 == --extensions[names[i]]) { all_required_extensions_supported = false; }`. -/
def checkStep (st : RequiredVulkanProperties) (name : String) : RequiredVulkanProperties :=
  { st with
    extensions := mapSet st.extensions name (mapGet st.extensions name - 1)
    all_required_extensions_supported :=
      if mapGet st.extensions name - 1 = -1 then false
      else st.all_required_extensions_supported }

/-- The `RequiredVulkanProperties` constructor: starts from the supported
map with the flag `true` and decrements the counter of every requested
name in order. -/
def RequiredVulkanProperties.make (name : String) (supported_extensions : SupportMap)
    (names : List String) : RequiredVulkanProperties :=
  names.foldl checkStep
    { property_type_name := name
      extensions := supported_extensions
      all_required_extensions_supported := true }

/-- The availability table built by `check_glfw_required_extensions` /
`check_required_validation_layers`: every available name is assigned the
counter `1`. -/
def buildSupportMap (available : List String) : SupportMap :=
  available.foldl (fun m n => mapSet m n 1) []

/-- Embedding of `utility::check_glfw_required_extensions`, with the
host-reported available extension names made an explicit argument. -/
def check_glfw_required_extensions (available : List String) (names : List String) :
    RequiredVulkanProperties :=
  RequiredVulkanProperties.make "Extensions" (buildSupportMap available) names

/-- One queue family, reduced to the `queueFlags` bitmask consulted by the
code (`VkQueueFamilyProperties::queueFlags`, a `uint32_t`). -/
structure QueueFamilyProperties where
  queueFlags : Nat
deriving DecidableEq

/-- Embedding of the `QueueFaimilyIndices` struct from `main.cpp`
(the misspelling is the source's). -/
structure QueueFaimilyIndices where
  graphicsFamily : Option Nat
deriving DecidableEq

/-- Member `isComplete()`. -/
def QueueFaimilyIndices.isComplete (q : QueueFaimilyIndices) : Bool :=
  q.graphicsFamily.isSome

/-- Value of `VK_QUEUE_GRAPHICS_BIT`. -/
def VK_QUEUE_GRAPHICS_BIT : Nat := 1

/-- The `std::ranges::find_if` + `std::distance` pattern of
`findQueueFamilies`: index of the first family whose flags contain the
graphics bit, `none` when there is no such family. -/
def findGraphicsIndex : List QueueFamilyProperties → Option Nat
  | [] => none
  | qf :: rest =>
      if qf.queueFlags &&& VK_QUEUE_GRAPHICS_BIT ≠ 0 then some 0
      else (findGraphicsIndex rest).map (fun i => i + 1)

/-- Embedding of `findQueueFamilies`, with the device's queue-family list
made an explicit argument. -/
def findQueueFamilies (queueFamilies : List QueueFamilyProperties) : QueueFaimilyIndices :=
  { graphicsFamily := findGraphicsIndex queueFamilies }

/-- Value of `VK_PHYSICAL_DEVICE_TYPE_DISCRETE_GPU`. -/
def VK_PHYSICAL_DEVICE_TYPE_DISCRETE_GPU : Nat := 2

/-- The device data consulted by `rateDeviceSuitability`:
`deviceType` and `maxImageDimension2D` from `VkPhysicalDeviceProperties`,
`geometryShader` from `VkPhysicalDeviceFeatures`, and the queue families
reported by `vkGetPhysicalDeviceQueueFamilyProperties`. -/
structure PhysicalDevice where
  deviceType : Nat
  maxImageDimension2D : Nat
  geometryShader : Bool
  queueFamilies : List QueueFamilyProperties
deriving DecidableEq

/-- Reinterpretation of a `Nat` as a two's-complement 32-bit `int`, the
effect of `int score; score += uint32_value;` in C++ (the `int` operand is
converted to `unsigned`, the sum is taken mod `2 ^ 32`, and the result is
converted back to `int`). -/
def toInt32 (n : Nat) : Int :=
  if n % 2 ^ 32 < 2 ^ 31 then (n % 2 ^ 32 : Int) else (n % 2 ^ 32 : Int) - 2 ^ 32

/-- Embedding of `rateDeviceSuitability`: 0 without the geometry-shader
feature, 0 without a graphics queue family, otherwise the discrete-GPU
bonus of 1000 plus `maxImageDimension2D`, accumulated in a 32-bit `int`. -/
def rateDeviceSuitability (device : PhysicalDevice) : Int :=
  if device.geometryShader = false then 0
  else if (findQueueFamilies device.queueFamilies).isComplete = false then 0
  else
    toInt32
      ((if device.deviceType = VK_PHYSICAL_DEVICE_TYPE_DISCRETE_GPU then 1000 else 0) +
        device.maxImageDimension2D)

/-- The `std::multimap` + `rbegin()` pattern of `pickPhysicalDevice`:
the entry with the greatest score; insertion with the `begin()` hint puts
later equal keys before earlier ones, so `rbegin()` is the first-enumerated
entry among those with the maximal score. -/
def selectBest (l : List (Int × PhysicalDevice)) : Option (Int × PhysicalDevice) :=
  l.foldl
    (fun acc p =>
      match acc with
      | none => some p
      | some q => if q.1 < p.1 then some p else some q)
    none

/-- Embedding of `pickPhysicalDevice`, with the enumerated devices made an
explicit argument; a thrown `std::runtime_error` is an `Except.error`
carrying the exception message. -/
def pickPhysicalDevice (devices : List PhysicalDevice) : Except String PhysicalDevice :=
  if devices.length = 0 then Except.error "failed to find GPUs with Vulkan support!"
  else
    match selectBest (devices.map (fun d => (rateDeviceSuitability d, d))) with
    | none => Except.error "failed to find a suitable GPU!"
    | some best => Except.ok best.2

/-- Log events emitted on the debug-messenger setup path. -/
inductive LogEvent where
  | initializeDebugMessenger
  | couldNotFindCreateDebugUtilsMessenger
deriving DecidableEq

/-- Value of `VK_SUCCESS`. -/
def VK_SUCCESS : Int := 0

/-- Value of `VK_ERROR_EXTENSION_NOT_PRESENT`. -/
def VK_ERROR_EXTENSION_NOT_PRESENT : Int := -7

/-- Embedding of `CreateDebugUtilsMessengerEXT`: `proc` is `none` when
`vkGetInstanceProcAddr` does not find `vkCreateDebugUtilsMessengerEXT`,
and `some r` when the entry point exists and returns `VkResult` `r`.
Returns the emitted log events and the `VkResult`. -/
def CreateDebugUtilsMessengerEXT (proc : Option Int) : List LogEvent × Int :=
  match proc with
  | none => ([LogEvent.couldNotFindCreateDebugUtilsMessenger], VK_ERROR_EXTENSION_NOT_PRESENT)
  | some r => ([], r)

/-- Embedding of `setupDebugMessenger`: a no-op returning a null messenger
when validation layers are disabled; otherwise it logs, calls
`CreateDebugUtilsMessengerEXT`, and throws on any non-`VK_SUCCESS`
result. Returns the emitted log events and the outcome. -/
def setupDebugMessenger (enableValidationLayers : Bool) (proc : Option Int) :
    List LogEvent × Except String Unit :=
  if enableValidationLayers = false then ([], Except.ok ())
  else
    let create := CreateDebugUtilsMessengerEXT proc
    if create.2 ≠ VK_SUCCESS then
      (LogEvent.initializeDebugMessenger :: create.1,
        Except.error "failed to set up debug messenger!")
    else
      (LogEvent.initializeDebugMessenger :: create.1, Except.ok ())

/-- Log levels of the logging collaborator (spdlog). -/
inductive LogLevel where
  | debug
  | info
  | warn
  | error
deriving DecidableEq

/-- Value of `VK_DEBUG_UTILS_MESSAGE_SEVERITY_VERBOSE_BIT_EXT`. -/
def SEVERITY_VERBOSE : Nat := 1

/-- Value of `VK_DEBUG_UTILS_MESSAGE_SEVERITY_INFO_BIT_EXT`. -/
def SEVERITY_INFO : Nat := 16

/-- Value of `VK_DEBUG_UTILS_MESSAGE_SEVERITY_WARNING_BIT_EXT`. -/
def SEVERITY_WARNING : Nat := 256

/-- Value of `VK_DEBUG_UTILS_MESSAGE_SEVERITY_ERROR_BIT_EXT`. -/
def SEVERITY_ERROR : Nat := 4096

/-- Embedding of `getDebugMessageType`: the `switch` over the message-type
value (general = 1, validation = 2, performance = 4, anything else
falls to the `default` label). -/
def getDebugMessageType (messageType : Nat) : String :=
  if messageType = 1 then "General"
  else if messageType = 2 then "Validation"
  else if messageType = 4 then "Performance"
  else "Default"

/-- The `fmt::format` call of `debugCallback`. -/
def formatDebugMessage (messageType : Nat) (pMessage : String) : String :=
  "VK [" ++ getDebugMessageType messageType ++ "] " ++ pMessage

/-- Value of `VK_FALSE`. -/
def VK_FALSE : Bool := false

/-- Embedding of `debugCallback`: formats the message, dispatches on the
severity `switch` (the `MAX_ENUM` label and any unlisted value emit
nothing), and returns `VK_FALSE`. The first component collects the
`spdlog` calls as (level, message) pairs. -/
def debugCallback (messageSeverity : Nat) (messageType : Nat) (pMessage : String) :
    List (LogLevel × String) × Bool :=
  let message := formatDebugMessage messageType pMessage
  let logs : List (LogLevel × String) :=
    if messageSeverity = SEVERITY_INFO then [(LogLevel.info, message)]
    else if messageSeverity = SEVERITY_VERBOSE then [(LogLevel.debug, message)]
    else if messageSeverity = SEVERITY_WARNING then [(LogLevel.warn, message)]
    else if messageSeverity = SEVERITY_ERROR then [(LogLevel.error, message)]
    else []
  (logs, VK_FALSE)

/-- Well-formedness of a support map: the keys are pairwise distinct
(`std::map` guarantees this; `mapSet` preserves it). -/
def WellFormedMap (m : SupportMap) : Prop :=
  (m.map Prod.fst).Nodup

/-- A device with the geometry-shader feature, a graphics queue family,
non-discrete type and the largest `maxImageDimension2D` that still fits a
32-bit `int` score. -/
def overflowDeviceLow : PhysicalDevice :=
  { deviceType := 0
    maxImageDimension2D := 2147483647
    geometryShader := true
    queueFamilies := [{ queueFlags := 1 }] }

/-- The same device with `maxImageDimension2D` one larger, which makes the
accumulated `int` score wrap around. -/
def overflowDeviceHigh : PhysicalDevice :=
  { deviceType := 0
    maxImageDimension2D := 2147483648
    geometryShader := true
    queueFamilies := [{ queueFlags := 1 }] }

/-- A small well-behaved device used to instantiate universally
quantified theorems. -/
def baseDevice : PhysicalDevice :=
  { deviceType := 0
    maxImageDimension2D := 0
    geometryShader := true
    queueFamilies := [{ queueFlags := 1 }] }

/-- A device without the geometry-shader feature; `rateDeviceSuitability`
scores it 0. -/
def noGeometryDevice : PhysicalDevice :=
  { deviceType := VK_PHYSICAL_DEVICE_TYPE_DISCRETE_GPU
    maxImageDimension2D := 4096
    geometryShader := false
    queueFamilies := [{ queueFlags := 1 }] }

theorem mapFind_mapSet (m : SupportMap) (k : String) (v : Int) (n : String) :
    mapFind (mapSet m k v) n = if n = k then some v else mapFind m n := by
  induction m with
  | nil =>
    by_cases h : n = k
    · subst h; simp [mapSet, mapFind]
    · simp [mapSet, mapFind, h, Ne.symm h]
  | cons p rest ih =>
    by_cases hp : p.1 = k
    · subst hp
      by_cases h : n = p.1
      · subst h; simp [mapSet, mapFind]
      · simp [mapSet, mapFind, h, Ne.symm h]
    · by_cases hpn : p.1 = n
      · have h : ¬n = k := fun hk => hp (hpn.trans hk)
        simp [mapSet, mapFind, hp, hpn, h]
      · simp [mapSet, mapFind, hp, hpn, ih]

theorem mapGet_mapSet (m : SupportMap) (k : String) (v : Int) (n : String) :
    mapGet (mapSet m k v) n = if n = k then v else mapGet m n := by
  by_cases h : n = k <;> simp [mapGet, mapFind_mapSet, h]

theorem mapFind_isSome_mapSet (m : SupportMap) (k : String) (v : Int) (n : String)
    (h : (mapFind m n).isSome = true) : (mapFind (mapSet m k v) n).isSome = true := by
  rw [mapFind_mapSet]
  by_cases hk : n = k <;> simp [hk, h]

theorem mem_keys_mapSet (m : SupportMap) (k : String) (v : Int) (n : String) :
    n ∈ (mapSet m k v).map Prod.fst ↔ n = k ∨ n ∈ m.map Prod.fst := by
  induction m with
  | nil => simp [mapSet]
  | cons p rest ih =>
    by_cases hp : p.1 = k
    · subst hp
      by_cases h : n = p.1 <;> simp [mapSet, h]
    · simp [mapSet, hp, ih]
      tauto

theorem wellFormedMap_mapSet (m : SupportMap) (k : String) (v : Int)
    (h : WellFormedMap m) : WellFormedMap (mapSet m k v) := by
  induction m with
  | nil => simp [WellFormedMap, mapSet]
  | cons p rest ih =>
    simp only [WellFormedMap, List.map_cons, List.nodup_cons] at h
    by_cases hp : p.1 = k
    · subst hp
      simpa [WellFormedMap, mapSet] using h
    · have hrest := ih h.2
      have hmemcl : p.1 ∉ (mapSet rest k v).map Prod.fst := by
        intro hmem
        rcases (mem_keys_mapSet rest k v p.1).mp hmem with h1 | h1
        · exact hp h1
        · exact h.1 h1
      simp only [WellFormedMap, mapSet]
      rw [if_neg hp]
      simp only [List.map_cons, List.nodup_cons]
      exact ⟨hmemcl, hrest⟩

theorem mapFind_eq_some_of_mem (m : SupportMap) (n : String) (v : Int)
    (hwf : WellFormedMap m) (hmem : (n, v) ∈ m) : mapFind m n = some v := by
  induction m with
  | nil => simp at hmem
  | cons p rest ih =>
    simp only [WellFormedMap, List.map_cons, List.nodup_cons] at hwf
    rcases List.mem_cons.mp hmem with h | h
    · subst h
      simp [mapFind]
    · by_cases hp : p.1 = n
      · exact absurd (hp ▸ List.mem_map_of_mem Prod.fst h) hwf.1
      · simpa [mapFind, hp] using ih hwf.2 h

theorem mem_of_mapFind_eq_some (m : SupportMap) (n : String) (v : Int)
    (h : mapFind m n = some v) : (n, v) ∈ m := by
  induction m with
  | nil => simp [mapFind] at h
  | cons p rest ih =>
    by_cases hp : p.1 = n
    · simp only [mapFind] at h
      rw [if_pos hp] at h
      have hv : p.2 = v := Option.some.inj h
      have hpnv : (n, v) = p := by
        cases p with
        | mk a b => cases hp; cases hv; rfl
      rw [List.mem_cons]
      exact Or.inl hpnv
    · simp only [mapFind] at h
      rw [if_neg hp] at h
      exact List.mem_cons_of_mem p (ih h)

theorem checkStep_extensions (st : RequiredVulkanProperties) (r : String) :
    (checkStep st r).extensions = mapSet st.extensions r (mapGet st.extensions r - 1) := rfl

theorem checkStep_flag (st : RequiredVulkanProperties) (r : String) :
    (checkStep st r).all_required_extensions_supported =
      if mapGet st.extensions r - 1 = -1 then false
      else st.all_required_extensions_supported := rfl

theorem loop_mapGet (R : List String) (st : RequiredVulkanProperties) (n : String) :
    mapGet (R.foldl checkStep st).extensions n = mapGet st.extensions n - R.count n := by
  induction R generalizing st with
  | nil => simp
  | cons r R ih =>
    rw [List.foldl_cons, ih, checkStep_extensions, mapGet_mapSet]
    by_cases h : n = r
    · subst h
      rw [if_pos rfl, List.count_cons_self]
      push_cast
      omega
    · rw [List.count_cons_of_ne h]
      rw [if_neg h]

theorem loop_flag (R : List String) (st : RequiredVulkanProperties) :
    (R.foldl checkStep st).all_required_extensions_supported = true ↔
      st.all_required_extensions_supported = true ∧
        ∀ n : String, 0 ≤ mapGet st.extensions n →
          (R.count n : Int) ≤ mapGet st.extensions n := by
  induction R generalizing st with
  | nil => simp
  | cons r R ih =>
    rw [List.foldl_cons, ih, checkStep_flag, checkStep_extensions]
    by_cases hg : mapGet st.extensions r - 1 = -1
    · rw [if_pos hg]
      simp only [Bool.false_eq_true, false_and, false_iff, not_and]
      intro _ hall
      have h1 := hall r (by omega)
      rw [List.count_cons_self] at h1
      have h2 : (0 : Int) ≤ R.count r := by positivity
      push_cast at h1
      omega
    · rw [if_neg hg]
      constructor
      · rintro ⟨hf, hall⟩
        refine ⟨hf, fun n hn => ?_⟩
        by_cases hnr : n = r
        · subst hnr
          have h1 := hall n (by rw [mapGet_mapSet, if_pos rfl]; omega)
          rw [mapGet_mapSet, if_pos rfl] at h1
          rw [List.count_cons_self]
          push_cast at h1 ⊢
          omega
        · have h1 := hall n (by rw [mapGet_mapSet, if_neg hnr]; exact hn)
          rw [mapGet_mapSet, if_neg hnr] at h1
          rw [List.count_cons_of_ne hnr]
          exact h1
      · rintro ⟨hf, hall⟩
        refine ⟨hf, fun n hn => ?_⟩
        by_cases hnr : n = r
        · subst hnr
          rw [mapGet_mapSet, if_pos rfl] at hn ⊢
          have h1 := hall n (by omega)
          rw [List.count_cons_self] at h1
          push_cast at h1 ⊢
          omega
        · rw [mapGet_mapSet, if_neg hnr] at hn ⊢
          have h1 := hall n hn
          rw [List.count_cons_of_ne hnr] at h1
          exact h1

theorem loop_wellFormed (R : List String) (st : RequiredVulkanProperties)
    (h : WellFormedMap st.extensions) :
    WellFormedMap (R.foldl checkStep st).extensions := by
  induction R generalizing st with
  | nil => exact h
  | cons r R ih =>
    rw [List.foldl_cons]
    exact ih _ (by rw [checkStep_extensions]; exact wellFormedMap_mapSet _ _ _ h)

theorem loop_mapFind_isSome (R : List String) (st : RequiredVulkanProperties) (n : String)
    (h : n ∈ R ∨ (mapFind st.extensions n).isSome = true) :
    (mapFind (R.foldl checkStep st).extensions n).isSome = true := by
  induction R generalizing st with
  | nil =>
    rcases h with h | h
    · simp at h
    · exact h
  | cons r R ih =>
    rw [List.foldl_cons]
    apply ih
    rcases h with h | h
    · rcases List.mem_cons.mp h with h1 | h1
      · subst h1
        right
        rw [checkStep_extensions, mapFind_mapSet, if_pos rfl]
        rfl
      · exact Or.inl h1
    · right
      rw [checkStep_extensions]
      exact mapFind_isSome_mapSet _ _ _ _ h

theorem mapGet_buildSupportMap_aux (A : List String) (m : SupportMap) (n : String) :
    mapGet (A.foldl (fun m a => mapSet m a 1) m) n =
      if n ∈ A then 1 else mapGet m n := by
  induction A generalizing m with
  | nil => simp
  | cons a A ih =>
    rw [List.foldl_cons, ih]
    by_cases hA : n ∈ A
    · simp [hA, List.mem_cons]
    · rw [if_neg hA, mapGet_mapSet]
      by_cases hna : n = a
      · subst hna
        simp [List.mem_cons]
      · simp [hna, hA, List.mem_cons]

theorem mapGet_buildSupportMap (A : List String) (n : String) :
    mapGet (buildSupportMap A) n = if n ∈ A then 1 else 0 := by
  rw [buildSupportMap, mapGet_buildSupportMap_aux]
  simp [mapGet, mapFind]

theorem wellFormed_buildSupportMap (A : List String) :
    WellFormedMap (buildSupportMap A) := by
  rw [buildSupportMap]
  have haux : ∀ (l : List String) (m : SupportMap), WellFormedMap m →
      WellFormedMap (l.foldl (fun m a => mapSet m a 1) m) := by
    intro l
    induction l with
    | nil => intro m hm; exact hm
    | cons a l ih =>
      intro m hm
      rw [List.foldl_cons]
      exact ih _ (wellFormedMap_mapSet _ _ _ hm)
  exact haux A [] (by simp [WellFormedMap])

theorem findGraphicsIndex_eq_none_iff (l : List QueueFamilyProperties) :
    findGraphicsIndex l = none ↔
      ∀ qf ∈ l, qf.queueFlags &&& VK_QUEUE_GRAPHICS_BIT = 0 := by
  induction l with
  | nil => simp [findGraphicsIndex]
  | cons qf rest ih =>
    by_cases h : qf.queueFlags &&& VK_QUEUE_GRAPHICS_BIT ≠ 0
    · simp [findGraphicsIndex, h]
    · push_neg at h
      simp [findGraphicsIndex, h, ih]

theorem findGraphicsIndex_eq_some_iff (l : List QueueFamilyProperties) (i : Nat) :
    findGraphicsIndex l = some i ↔
      ∃ h : i < l.length,
        (l.get ⟨i, h⟩).queueFlags &&& VK_QUEUE_GRAPHICS_BIT ≠ 0 ∧
          ∀ qf ∈ l.take i, qf.queueFlags &&& VK_QUEUE_GRAPHICS_BIT = 0 := by
  induction l generalizing i with
  | nil => simp [findGraphicsIndex]
  | cons qf rest ih =>
    by_cases h : qf.queueFlags &&& VK_QUEUE_GRAPHICS_BIT ≠ 0
    · rw [show findGraphicsIndex (qf :: rest) = some 0 from by simp [findGraphicsIndex, h]]
      cases i with
      | zero => simp [h]
      | succ j =>
        constructor
        · intro hj
          exact absurd (Option.some.inj hj) (by omega)
        · rintro ⟨hlen, hbit, hall⟩
          exact absurd (hall qf (by simp [List.take_succ_cons])) h
    · push_neg at h
      rw [show findGraphicsIndex (qf :: rest) = (findGraphicsIndex rest).map (fun i => i + 1)
        from by simp [findGraphicsIndex, h]]
      cases i with
      | zero =>
        constructor
        · intro hj
          obtain ⟨a, _, hai⟩ := Option.map_eq_some'.mp hj
          exact absurd hai (by omega)
        · rintro ⟨hlen, hbit, hall⟩
          simp only [List.get] at hbit
          exact absurd h (by simpa using hbit)
      | succ j =>
        constructor
        · intro hj
          obtain ⟨a, ha, hai⟩ := Option.map_eq_some'.mp hj
          have haj : a = j := by omega
          subst haj
          obtain ⟨hlen, hbit, hall⟩ := (ih a).mp ha
          refine ⟨by simpa using hlen, by simpa using hbit, ?_⟩
          intro x hx
          rw [List.take_succ_cons] at hx
          rcases List.mem_cons.mp hx with rfl | hx
          · exact h
          · exact hall x hx
        · rintro ⟨hlen, hbit, hall⟩
          have hj : findGraphicsIndex rest = some j := by
            apply (ih j).mpr
            refine ⟨by simpa using hlen, by simpa using hbit, ?_⟩
            intro x hx
            exact hall x (by rw [List.take_succ_cons]; exact List.mem_cons_of_mem _ hx)
          rw [hj]
          rfl

theorem toInt32_of_lt (n : Nat) (h : n < 2 ^ 31) : toInt32 n = n := by
  have h32 : n < 2 ^ 32 := by omega
  rw [toInt32, Nat.mod_eq_of_lt h32, if_pos (by exact_mod_cast h)]
  omega

/-- C1 counterexample: with available names `A = ["a"]` and requested
names `R = ["a", "a"]`, `R` is a subset of `A` as sets (ignoring
duplicates), yet the constructor reports `all_supported() = false`,
because the second decrement of the counter for `"a"` drives it to `-1`. -/
theorem all_supported_subset_counterexample :
    (∀ r ∈ (["a", "a"] : List String), r ∈ (["a"] : List String)) ∧
      (check_glfw_required_extensions ["a"] ["a", "a"]).all_supported = false := by
  constructor
  · decide
  · rfl

/-- C1 (amended): building the support table from `A` and checking `R`
yields `all_supported() = true` iff every requested name is available AND
the requested sequence contains no duplicate name; duplicates in `A` are
immaterial, but a duplicate in `R` makes the verdict false even when the
name is available. -/
theorem all_supported_iff_subset_and_nodup (A R : List String) :
    (check_glfw_required_extensions A R).all_supported = true ↔
      (∀ r ∈ R, r ∈ A) ∧ R.Nodup := by
  simp only [check_glfw_required_extensions, RequiredVulkanProperties.make,
    RequiredVulkanProperties.all_supported]
  rw [loop_flag]
  simp only [true_and]
  constructor
  · intro hall
    constructor
    · intro r hr
      by_contra hra
      have h1 := hall r (by simp [mapGet_buildSupportMap, hra])
      rw [mapGet_buildSupportMap, if_neg hra] at h1
      have h2 : 0 < R.count r := List.count_pos_iff.mpr hr
      omega
    · rw [List.nodup_iff_count_le_one]
      intro a
      by_cases ha : a ∈ A
      · have h1 := hall a (by simp [mapGet_buildSupportMap, ha])
        rw [mapGet_buildSupportMap, if_pos ha] at h1
        exact_mod_cast h1
      · have h1 := hall a (by simp [mapGet_buildSupportMap, ha])
        rw [mapGet_buildSupportMap, if_neg ha] at h1
        omega
  · rintro ⟨hsub, hnd⟩ n hn
    rw [mapGet_buildSupportMap]
    by_cases ha : n ∈ A
    · rw [if_pos ha]
      exact_mod_cast List.nodup_iff_count_le_one.mp hnd n
    · rw [if_neg ha]
      have hnR : n ∉ R := fun hr => ha (hsub n hr)
      rw [List.count_eq_zero.mpr hnR]
      simp

/-- C1 witness: `all_supported_iff_subset_and_nodup` instantiated at a
concrete available set and a concrete duplicate-free requested subset. -/
theorem all_supported_iff_subset_and_nodup_witness :
    (check_glfw_required_extensions ["a", "b"] ["b"]).all_supported = true :=
  (all_supported_iff_subset_and_nodup ["a", "b"] ["b"]).mpr
    ⟨by decide, by decide⟩

/-- C6: after the constructor processes a requirement list,
`all_supported()` is true iff no entry of the table has a negative
counter; a single decrement of a present entry leaves it at 0, and a
single decrement of an entry absent from the built table (defaulted to 0
on first access) drives it to -1. -/
theorem all_supported_iff_no_negative_entry (A R : List String) :
    ((check_glfw_required_extensions A R).all_supported = true ↔
        ∀ p ∈ (check_glfw_required_extensions A R).extensions, 0 ≤ p.2) ∧
      (∀ n ∈ A, mapGet (check_glfw_required_extensions A [n]).extensions n = 0) ∧
      ∀ n, n ∉ A → mapGet (check_glfw_required_extensions A [n]).extensions n = -1 := by
  refine ⟨?_, ?_, ?_⟩
  · simp only [check_glfw_required_extensions, RequiredVulkanProperties.make,
      RequiredVulkanProperties.all_supported]
    constructor
    · intro hflag p hp
      obtain ⟨pn, pv⟩ := p
      have hwf : WellFormedMap
          ((R.foldl checkStep
            { property_type_name := "Extensions"
              extensions := buildSupportMap A
              all_required_extensions_supported := true }).extensions) :=
        loop_wellFormed R _ (wellFormed_buildSupportMap A)
      have hfind := mapFind_eq_some_of_mem _ pn pv hwf hp
      have hget : mapGet (R.foldl checkStep
          { property_type_name := "Extensions"
            extensions := buildSupportMap A
            all_required_extensions_supported := true }).extensions pn = pv := by
        rw [mapGet, hfind]
        rfl
      have hg := loop_mapGet R
        { property_type_name := "Extensions"
          extensions := buildSupportMap A
          all_required_extensions_supported := true } pn
      obtain ⟨-, hall⟩ := (loop_flag R _).mp hflag
      have hinit : 0 ≤ mapGet (buildSupportMap A) pn := by
        rw [mapGet_buildSupportMap]
        by_cases hm : pn ∈ A <;> simp [hm]
      have h1 : (R.count pn : Int) ≤ mapGet (buildSupportMap A) pn := hall pn hinit
      have hg2 : mapGet (R.foldl checkStep
          { property_type_name := "Extensions"
            extensions := buildSupportMap A
            all_required_extensions_supported := true }).extensions pn =
          mapGet (buildSupportMap A) pn - R.count pn := hg
      omega
    · intro hpos
      apply (loop_flag R _).mpr
      refine ⟨rfl, fun n hn => ?_⟩
      by_cases hR : n ∈ R
      · have hs := loop_mapFind_isSome R
          { property_type_name := "Extensions"
            extensions := buildSupportMap A
            all_required_extensions_supported := true } n (Or.inl hR)
        obtain ⟨v, hv⟩ := Option.isSome_iff_exists.mp hs
        have hmem := mem_of_mapFind_eq_some _ _ _ hv
        have hvpos := hpos (n, v) hmem
        have hgv : mapGet (R.foldl checkStep
            { property_type_name := "Extensions"
              extensions := buildSupportMap A
              all_required_extensions_supported := true }).extensions n = v := by
          rw [mapGet, hv]
          rfl
        have hg := loop_mapGet R
          { property_type_name := "Extensions"
            extensions := buildSupportMap A
            all_required_extensions_supported := true } n
        simp only [] at hvpos
        omega
      · rw [List.count_eq_zero.mpr hR]
        simpa using hn
  · intro n hnA
    simp only [check_glfw_required_extensions, RequiredVulkanProperties.make]
    rw [loop_mapGet, mapGet_buildSupportMap, if_pos hnA]
    simp [List.count_cons]
  · intro n hnA
    simp only [check_glfw_required_extensions, RequiredVulkanProperties.make]
    rw [loop_mapGet, mapGet_buildSupportMap, if_neg hnA]
    simp [List.count_cons]

/-- C6 witness: `all_supported_iff_no_negative_entry` instantiated at a
concrete available set, one present requested name and one absent one. -/
theorem all_supported_iff_no_negative_entry_witness :
    mapGet (check_glfw_required_extensions ["a"] ["a"]).extensions "a" = 0 ∧
      mapGet (check_glfw_required_extensions ["a"] ["b"]).extensions "b" = -1 :=
  ⟨(all_supported_iff_no_negative_entry ["a"] ["a"]).2.1 "a" (by decide),
   (all_supported_iff_no_negative_entry ["a"] ["b"]).2.2 "b" (by decide)⟩

/-- C8: the `all_supported()` verdict is invariant under permutation of
the requested-name sequence, for every available-name list. -/
theorem all_supported_perm_invariant (A R S : List String) (h : R.Perm S) :
    (check_glfw_required_extensions A R).all_supported =
      (check_glfw_required_extensions A S).all_supported := by
  have hiff : ((check_glfw_required_extensions A R).all_supported = true) ↔
      ((check_glfw_required_extensions A S).all_supported = true) := by
    simp only [check_glfw_required_extensions, RequiredVulkanProperties.make,
      RequiredVulkanProperties.all_supported]
    rw [loop_flag, loop_flag]
    constructor
    · rintro ⟨hf, hall⟩
      refine ⟨hf, fun n hn => ?_⟩
      rw [← h.count_eq n]
      exact hall n hn
    · rintro ⟨hf, hall⟩
      refine ⟨hf, fun n hn => ?_⟩
      rw [h.count_eq n]
      exact hall n hn
  cases hR : (check_glfw_required_extensions A R).all_supported <;>
    cases hS : (check_glfw_required_extensions A S).all_supported <;>
    simp_all

/-- C8 witness: `all_supported_perm_invariant` at a concrete available
set and a concrete transposition of the requested names. -/
theorem all_supported_perm_invariant_witness :
    (check_glfw_required_extensions ["a"] ["a", "b"]).all_supported =
      (check_glfw_required_extensions ["a"] ["b", "a"]).all_supported :=
  all_supported_perm_invariant ["a"] ["a", "b"] ["b", "a"] (List.Perm.swap "b" "a" [])

/-- C7: `findQueueFamilies` returns an incomplete result exactly when no
family has the graphics bit, and returns index `i` exactly when family
`i` has the graphics bit and every earlier family lacks it (the lowest
qualifying index). -/
theorem findQueueFamilies_first_graphics (qfs : List QueueFamilyProperties) :
    ((findQueueFamilies qfs).isComplete = false ↔
        ∀ qf ∈ qfs, qf.queueFlags &&& VK_QUEUE_GRAPHICS_BIT = 0) ∧
      ∀ i : Nat,
        (findQueueFamilies qfs).graphicsFamily = some i ↔
          ∃ h : i < qfs.length,
            (qfs.get ⟨i, h⟩).queueFlags &&& VK_QUEUE_GRAPHICS_BIT ≠ 0 ∧
              ∀ qf ∈ qfs.take i, qf.queueFlags &&& VK_QUEUE_GRAPHICS_BIT = 0 := by
  constructor
  · rw [show (findQueueFamilies qfs).isComplete = (findGraphicsIndex qfs).isSome from rfl]
    rw [← findGraphicsIndex_eq_none_iff]
    cases findGraphicsIndex qfs <;> simp
  · intro i
    rw [show (findQueueFamilies qfs).graphicsFamily = findGraphicsIndex qfs from rfl]
    exact findGraphicsIndex_eq_some_iff qfs i

/-- C7 witness: `findQueueFamilies_first_graphics` applied to a concrete
list whose first graphics-capable family sits at index 1, behind a
compute-only family. -/
theorem findQueueFamilies_first_graphics_witness :
    (findQueueFamilies [{ queueFlags := 4 }, { queueFlags := 1 }]).graphicsFamily = some 1 :=
  ((findQueueFamilies_first_graphics [{ queueFlags := 4 }, { queueFlags := 1 }]).2 1).mpr
    ⟨by decide, by decide, by decide⟩

/-- C4: a device whose geometry-shader feature flag is absent scores
exactly 0, whatever its type, `maxImageDimension2D` or queue families. -/
theorem rate_zero_of_no_geometry (d : PhysicalDevice)
    (h : d.geometryShader = false) : rateDeviceSuitability d = 0 := by
  rw [rateDeviceSuitability, if_pos h]

/-- C4 witness: `rate_zero_of_no_geometry` on a concrete discrete device
with a huge image dimension and a graphics queue but no geometry
shader. -/
theorem rate_zero_of_no_geometry_witness :
    rateDeviceSuitability noGeometryDevice = 0 :=
  rate_zero_of_no_geometry noGeometryDevice rfl

/-- C5 counterexample: two devices passing both hard requirements and
identical except for `maxImageDimension2D` (2^31 - 1 versus 2^31); the
larger dimension makes the 32-bit `int` score wrap to -2^31, so the score
strictly decreases while the dimension increases, refuting unconditional
monotonicity. -/
theorem rate_monotonicity_counterexample :
    overflowDeviceLow.geometryShader = true ∧
      (findQueueFamilies overflowDeviceLow.queueFamilies).isComplete = true ∧
      overflowDeviceHigh = { overflowDeviceLow with maxImageDimension2D := 2147483648 } ∧
      overflowDeviceLow.maxImageDimension2D ≤ overflowDeviceHigh.maxImageDimension2D ∧
      rateDeviceSuitability overflowDeviceLow = 2147483647 ∧
      rateDeviceSuitability overflowDeviceHigh = -2147483648 ∧
      rateDeviceSuitability overflowDeviceHigh < rateDeviceSuitability overflowDeviceLow := by
  refine ⟨rfl, rfl, rfl, by decide, ?_, ?_, ?_⟩ <;> decide

/-- C5 (amended): provided the accumulated score does not overflow a
32-bit `int` (`maxImageDimension2D + 1000 < 2^31`), the score of a device
passing both hard requirements is monotonically non-decreasing in
`maxImageDimension2D` with all else fixed, and a discrete-GPU device
scores exactly 1000 more than an otherwise-identical non-discrete one. -/
theorem rate_monotone_and_discrete_bonus :
    (∀ (d : PhysicalDevice) (dim1 dim2 : Nat),
        d.geometryShader = true →
        (findQueueFamilies d.queueFamilies).isComplete = true →
        dim1 ≤ dim2 → dim2 + 1000 < 2 ^ 31 →
        rateDeviceSuitability { d with maxImageDimension2D := dim1 } ≤
          rateDeviceSuitability { d with maxImageDimension2D := dim2 }) ∧
      ∀ (d : PhysicalDevice) (t : Nat),
        d.geometryShader = true →
        (findQueueFamilies d.queueFamilies).isComplete = true →
        d.maxImageDimension2D + 1000 < 2 ^ 31 →
        t ≠ VK_PHYSICAL_DEVICE_TYPE_DISCRETE_GPU →
        rateDeviceSuitability { d with deviceType := VK_PHYSICAL_DEVICE_TYPE_DISCRETE_GPU } =
          rateDeviceSuitability { d with deviceType := t } + 1000 := by
  constructor
  · intro d dim1 dim2 hg hq hle hover
    rw [rateDeviceSuitability, rateDeviceSuitability]
    simp only [hg, hq]
    norm_num
    have hb : (if d.deviceType = VK_PHYSICAL_DEVICE_TYPE_DISCRETE_GPU then 1000 else 0) ≤ 1000 := by
      split <;> omega
    rw [toInt32_of_lt _ (by omega), toInt32_of_lt _ (by omega)]
    exact_mod_cast Nat.add_le_add_left hle _
  · intro d t hg hq hover hne
    rw [rateDeviceSuitability, rateDeviceSuitability]
    simp only [hg, hq, hne]
    norm_num
    rw [toInt32_of_lt _ (by omega), toInt32_of_lt _ (by omega)]
    push_cast
    ring

/-- C5 witness: `rate_monotone_and_discrete_bonus` at a concrete device
with small dimensions. -/
theorem rate_monotone_and_discrete_bonus_witness :
    rateDeviceSuitability { baseDevice with maxImageDimension2D := 100 } ≤
        rateDeviceSuitability { baseDevice with maxImageDimension2D := 200 } ∧
      rateDeviceSuitability { baseDevice with deviceType := VK_PHYSICAL_DEVICE_TYPE_DISCRETE_GPU } =
        rateDeviceSuitability { baseDevice with deviceType := 0 } + 1000 :=
  ⟨rate_monotone_and_discrete_bonus.1 baseDevice 100 200 rfl rfl (by norm_num) (by norm_num),
   rate_monotone_and_discrete_bonus.2 baseDevice 0 rfl rfl (by decide) (by decide)⟩

/-- C2 failing-input evaluation: a single enumerated device without the
geometry-shader feature scores 0, yet `pickPhysicalDevice` returns it as
`Except.ok` instead of failing (the `candidates.empty()` guard is
unreachable once `deviceCount != 0`); with zero enumerated devices it
does fail. -/
theorem pickPhysicalDevice_accepts_all_zero_scores :
    rateDeviceSuitability noGeometryDevice = 0 ∧
      pickPhysicalDevice [noGeometryDevice] = Except.ok noGeometryDevice ∧
      pickPhysicalDevice [] = Except.error "failed to find GPUs with Vulkan support!" :=
  ⟨rfl, rfl, rfl⟩

/-- C3 counterexample: with validation layers enabled and the
`vkCreateDebugUtilsMessengerEXT` entry point absent, `setupDebugMessenger`
throws (`Except.error`) instead of proceeding without diagnostics. -/
theorem setupDebugMessenger_aborts_counterexample :
    (setupDebugMessenger true none).2 = Except.error "failed to set up debug messenger!" ∧
      (setupDebugMessenger true none).2 ≠ Except.ok () := by
  constructor
  · rfl
  · intro h
    have h2 : (Except.error "failed to set up debug messenger!" : Except String Unit) =
        Except.ok () := h
    exact Except.noConfusion h2

/-- C3 (amended): when the registration entry point is absent,
`CreateDebugUtilsMessengerEXT` logs that it could not be found and returns
`VK_ERROR_EXTENSION_NOT_PRESENT`; `setupDebugMessenger` then aborts
startup by throwing "failed to set up debug messenger!" rather than
proceeding without diagnostics. -/
theorem setupDebugMessenger_missing_entry_point (proc : Option Int) (h : proc = none) :
    CreateDebugUtilsMessengerEXT proc =
        ([LogEvent.couldNotFindCreateDebugUtilsMessenger], VK_ERROR_EXTENSION_NOT_PRESENT) ∧
      setupDebugMessenger true proc =
        ([LogEvent.initializeDebugMessenger, LogEvent.couldNotFindCreateDebugUtilsMessenger],
          Except.error "failed to set up debug messenger!") := by
  subst h
  exact ⟨rfl, rfl⟩

/-- C3 witness: `setupDebugMessenger_missing_entry_point` at the concrete
absent entry point. -/
theorem setupDebugMessenger_missing_entry_point_witness :
    setupDebugMessenger true none =
      ([LogEvent.initializeDebugMessenger, LogEvent.couldNotFindCreateDebugUtilsMessenger],
        Except.error "failed to set up debug messenger!") :=
  (setupDebugMessenger_missing_entry_point none rfl).2

/-- C9: the severity-to-log-level mapping of `debugCallback` is the fixed
total function verbose-to-debug, info-to-info, warning-to-warn,
error-to-error, and any severity outside these four recognized values
(including `MAX_ENUM`) emits no log at all. -/
theorem debugCallback_severity_mapping (ty : Nat) (msg : String) :
    (debugCallback SEVERITY_VERBOSE ty msg).1 =
        [(LogLevel.debug, formatDebugMessage ty msg)] ∧
      (debugCallback SEVERITY_INFO ty msg).1 =
        [(LogLevel.info, formatDebugMessage ty msg)] ∧
      (debugCallback SEVERITY_WARNING ty msg).1 =
        [(LogLevel.warn, formatDebugMessage ty msg)] ∧
      (debugCallback SEVERITY_ERROR ty msg).1 =
        [(LogLevel.error, formatDebugMessage ty msg)] ∧
      ∀ sev : Nat, sev ≠ SEVERITY_VERBOSE → sev ≠ SEVERITY_INFO →
        sev ≠ SEVERITY_WARNING → sev ≠ SEVERITY_ERROR →
        (debugCallback sev ty msg).1 = [] := by
  refine ⟨rfl, rfl, rfl, rfl, fun sev h1 h16 h256 h4096 => ?_⟩
  simp only [debugCallback, SEVERITY_VERBOSE, SEVERITY_INFO, SEVERITY_WARNING,
    SEVERITY_ERROR] at h1 h16 h256 h4096 ⊢
  rw [if_neg h16, if_neg h1, if_neg h256, if_neg h4096]

/-- C9 witness: `debugCallback_severity_mapping` instantiated at the
`MAX_ENUM` severity value 0x7FFFFFFF, which is dropped silently. -/
theorem debugCallback_severity_mapping_witness :
    (debugCallback 2147483647 1 "m").1 = [] :=
  (debugCallback_severity_mapping 1 "m").2.2.2.2 2147483647
    (by decide) (by decide) (by decide) (by decide)

/-- C10: `debugCallback` returns `VK_FALSE` for every severity, message
type and message; the diagnostics bridge never asks the API to abort the
triggering call. -/
theorem debugCallback_returns_vk_false (sev ty : Nat) (msg : String) :
    (debugCallback sev ty msg).2 = VK_FALSE := rfl
